import Mathlib

/-!
Verification of the eatlink_bot repository (src/main.rs, src/media_group.rs).

The development shallowly embeds the two source files:

* `src/main.rs` — the debounced batch-aggregation consumer: a bounded
  channel feeding a `consumer_loop` that races message reception against a
  2-second sleep, spawned append tasks that set the reply target and push
  fetch results into shared `ConsumerState`, and a flush on timer elapse;
  plus the `download` function performing the per-message fetch.
* `src/media_group.rs` — the media-group correlation cache
  (`process_media`) and its periodic sweep (`clean_cache`).

Shared mutable state protected by a lock is modelled by explicit state
passing: every interleaving of the concurrent fetch tasks and the flush is
captured by the order in which their critical sections are folded over the
state, since all mutation happens while the lock is held.
-/

namespace EatlinkBot

/-- Media kind recorded by the media-group cache, with the platform
file identifier (src/media_group.rs, `enum MediaType`). -/
inductive MediaType where
  | photo (fileId : String)
  | video (fileId : String)
deriving DecidableEq

/-- Last (largest) photo size of a message, as selected by
`msg.photo().and_then(|p| p.last())` in src/main.rs. -/
structure PhotoInfo where
  file_id : String
  unique_id : String
deriving DecidableEq

/-- Video payload of a message (src/main.rs `msg.video()`):
file identifier and the optional original file name. -/
structure VideoInfo where
  file_id : String
  file_name : Option String
deriving DecidableEq

/-- Inbound chat message, restricted to the fields the embedded code
reads: `msg.id`, `msg.chat_id()` (total for a `Message`, hence a plain
field here), the optional photo/video payloads and the optional
`media_group_id`. -/
structure InboundMessage where
  id : Int
  chatId : Int
  photo : Option PhotoInfo
  video : Option VideoInfo
  mediaGroupId : Option String
deriving DecidableEq

/-- Failure of one step inside `download` (src/main.rs lines 120-161);
each constructor corresponds to one fallible call whose error the `?`
operator propagates. -/
inductive FetchError where
  | dirError
  | getFileError
  | createError
  | downloadFileError
deriving DecidableEq

/-- Outcome of the fallible I/O collaborators that `download` calls,
one flag per call site; the filesystem and the chat platform are external
collaborators, so their success or failure is an input of the model. -/
structure IoEnv where
  dirOk : Bool
  getFileOk : Bool
  createOk : Bool
  downloadOk : Bool
deriving DecidableEq

/-- Embedding of `download` (src/main.rs lines 120-161): a photo branch,
a video branch, and the fallthrough `Ok("No media download")`. The
`save_message` call is fire-and-forget with no effect on the returned
value, so it does not appear. String formatting mirrors the
`format!` calls at lines 138 and 157. -/
def download (env : IoEnv) (msg : InboundMessage) : Except FetchError String :=
  if !env.dirOk then .error .dirError
  else
    match msg.photo with
    | some photo =>
        if !env.getFileOk then .error .getFileError
        else if !env.createOk then .error .createError
        else if !env.downloadOk then .error .downloadFileError
        else .ok ("下载图片" ++ photo.unique_id ++ "成功")
    | none =>
        match msg.video with
        | some video =>
            if !env.getFileOk then .error .getFileError
            else if !env.createOk then .error .createError
            else if !env.downloadOk then .error .downloadFileError
            else .ok ("下载视频" ++ (video.file_name.getD ("video_" ++ video.file_id ++ ".mp4")) ++ "成功")
        | none => .ok "No media download"

/-- Shared batch state of the consumer (src/main.rs `struct ConsumerState`):
the lazily initialised reply target (chat and message identifier of the
first message of the batch) and the accumulated status lines. -/
structure ConsumerState where
  reply_chat_id : Option Int
  reply_message_id : Option Int
  statics : List String
deriving DecidableEq

/-- State at the start of `consumer_loop` (src/main.rs lines 78-82):
no reply target, no status lines. -/
def initialState : ConsumerState :=
  { reply_chat_id := none, reply_message_id := none, statics := [] }

/-- Critical section of one spawned append task (src/main.rs lines 91-96):
under the lock it first sets `reply_message_id` and `reply_chat_id` with
`Option::or` (first-writer-wins), then pushes the fetch result onto
`statics` only when the fetch returned `Ok`. -/
def appendTask (st : ConsumerState) (msg : InboundMessage)
    (fetch : Except FetchError String) : ConsumerState :=
  let st1 : ConsumerState :=
    { reply_chat_id := st.reply_chat_id.or (some msg.chatId)
      reply_message_id := st.reply_message_id.or (some msg.id)
      statics := st.statics }
  match fetch with
  | .ok response => { st1 with statics := st1.statics ++ [response] }
  | .error _ => st1

/-- The outbound reply built by the flush: target chat, replied-to
message identifier, and the joined text. -/
structure Reply where
  chatId : Int
  replyTo : Int
  text : String
deriving DecidableEq

/-- Failure of `bot.send_message(..).reply_to(..).await` during the flush;
propagated by `?` out of `consumer_loop`. -/
inductive SendErr where
  | sendError
deriving DecidableEq

/-- Timer branch of the select loop (src/main.rs lines 99-115): with the
lock held, if both target fields are set, join `statics` with a newline,
send the reply (whose failure the `?` propagates, given here by the
external flag `sendFails`), then clear `statics` and both target fields;
otherwise do nothing. Returns the successor state and the reply sent, or
the send error that terminates the loop. -/
def timerTick (st : ConsumerState) (sendFails : Bool) :
    Except SendErr (ConsumerState × Option Reply) :=
  match st.reply_chat_id, st.reply_message_id with
  | some chatId, some msgId =>
      let response := String.intercalate "\n" st.statics
      if sendFails then .error .sendError
      else .ok (initialState, some { chatId := chatId, replyTo := msgId, text := response })
  | _, _ => .ok (st, none)

/-- One event observed by the consumer loop's state, in lock-acquisition
order: either a dequeued message whose spawned task runs its critical
section with the given fetch result, or a timer elapse whose outbound
send succeeds or fails as given. -/
inductive ConsumerEvent where
  | recv (msg : InboundMessage) (fetch : Except FetchError String)
  | tick (sendFails : Bool)

/-- Runs the consumer loop over a list of events, collecting the replies
sent; a failed send terminates the loop with the error, exactly as the
`?` at src/main.rs line 106 does. -/
def consumerRun (st : ConsumerState) :
    List ConsumerEvent → Except SendErr (ConsumerState × List Reply)
  | [] => .ok (st, [])
  | .recv msg fetch :: rest => consumerRun (appendTask st msg fetch) rest
  | .tick sendFails :: rest =>
      match timerTick st sendFails with
      | .error e => .error e
      | .ok (st2, sent) =>
          match consumerRun st2 rest with
          | .error e => .error e
          | .ok (st3, replies) => .ok (st3, sent.toList ++ replies)

/-- Folds the critical sections of a batch of successful append tasks,
in lock-acquisition order, over a state: each pair is a message together
with the status line its fetch returned. -/
def appendAll (st : ConsumerState) (batch : List (InboundMessage × String)) :
    ConsumerState :=
  batch.foldl (fun s p => appendTask s p.1 (.ok p.2)) st

/-- The claimed BatchState invariant (§3 of the spec): the reply target
is absent exactly when the accumulated lines are empty. -/
@[reducible] def batchInv (st : ConsumerState) : Prop :=
  (st.reply_chat_id = none ∧ st.reply_message_id = none) ↔ st.statics = []

/-- Bounded mpsc channel created by `channel(20)` at src/main.rs line 45:
a capacity and the buffered messages. -/
structure BoundedChannel where
  cap : Nat
  buf : List InboundMessage
deriving DecidableEq

/-- The channel as created in `main` (src/main.rs line 45): capacity 20,
initially empty. -/
def mainChannel : BoundedChannel :=
  { cap := 20, buf := [] }

/-- Outcome of one producer-side call on the channel: either the message
is buffered, or the call suspends the caller until capacity frees. -/
inductive SendOutcome where
  | enqueued (c : BoundedChannel)
  | blocked
deriving DecidableEq

/-- Embedding of `tx.send(msg).await` (src/main.rs line 56): tokio's
bounded `Sender::send` buffers the message when capacity remains and
otherwise suspends the sending task until the consumer frees a slot; it
has no error for a full channel. -/
def mpscSend (c : BoundedChannel) (msg : InboundMessage) : SendOutcome :=
  if c.buf.length < c.cap then .enqueued { cap := c.cap, buf := c.buf ++ [msg] }
  else .blocked

/-- Modelled from the spec: the `submit(msg) -> Result<(), QueueFull>`
contract of §4.1, which this claim attributes to the code — a full
channel makes the call fail with `QueueFull` instead of blocking. -/
inductive SubmitResult where
  | accepted (c : BoundedChannel)
  | queueFull
deriving DecidableEq

/-- Modelled from the spec: the submission behaviour the spec describes
(fail fast with `QueueFull` on a full queue), to be compared with the
source's `mpscSend`. -/
def submitSpec (c : BoundedChannel) (msg : InboundMessage) : SubmitResult :=
  if c.buf.length < c.cap then .accepted { cap := c.cap, buf := c.buf ++ [msg] }
  else .queueFull

/-- Quiet period of the consumer loop in seconds
(src/main.rs line 29, `RECEIVE_TIMEOUT`). -/
def RECEIVE_TIMEOUT : Nat := 2

/-- Deadline bookkeeping of the select loop's sleep: `deadline` is the
absolute time at which the sleep constructed at the current iteration's
`select!` fires. -/
structure LoopTimer where
  deadline : Nat
deriving DecidableEq

/-- One resolution of the race at src/main.rs lines 84-116: either
`receiver.recv()` completes at time `t` (only possible while `t` is
before the pending sleep's deadline), or the sleep fires at its
deadline. -/
inductive LoopEvent where
  | dequeue (t : Nat)
  | timerFire
deriving DecidableEq

/-- Timer effect of one iteration of the select loop. Each iteration of
`loop { tokio::select! { ... } }` constructs a fresh
`sleep(Duration::from_secs(RECEIVE_TIMEOUT))` future and drops the
unfinished one, so after either branch wins at time `t` the next pending
deadline is `t + RECEIVE_TIMEOUT`. -/
def selectStep (lt : LoopTimer) : LoopEvent → LoopTimer
  | .dequeue t => { deadline := t + RECEIVE_TIMEOUT }
  | .timerFire => { deadline := lt.deadline + RECEIVE_TIMEOUT }

/-- Media-group cache (src/media_group.rs `MEDIA_GROUP_CACHE`), modelled
as an association list from group identifier to the media items seen. -/
abbrev MediaGroupCache : Type := List (String × List MediaType)

/-- One tick of the sweep loop `clean_cache` (src/media_group.rs lines
43-49): `cache.retain(|_, photos| photos.len() < 2)` keeps exactly the
entries whose member list is shorter than 2. -/
def clean_cache_tick (cache : MediaGroupCache) : MediaGroupCache :=
  cache.filter (fun kv => kv.2.length < 2)

/-- Cache effect and result of `process_media` (src/media_group.rs lines
31-41): when the message has a `media_group_id`, get-or-create its entry
and push the media item; otherwise the cache is untouched. The function
always returns `Ok(())`. The truncated conditional `if group.len() == 2`
at line 37 has no body in the source and therefore no effect to model. -/
def process_media (cache : MediaGroupCache) (msg : InboundMessage)
    (media : MediaType) : Except String MediaGroupCache :=
  match msg.mediaGroupId with
  | some gid =>
      if cache.any (fun kv => kv.1 = gid) then
        .ok (cache.map (fun kv => if kv.1 = gid then (kv.1, kv.2 ++ [media]) else kv))
      else
        .ok (cache ++ [(gid, [media])])
  | none => .ok cache

/-- Sample message with no media and no group identifier, used to
instantiate theorems at concrete inputs. -/
def msg0 : InboundMessage :=
  { id := 7, chatId := 5, photo := none, video := none, mediaGroupId := none }

/-- A channel at capacity: 20 buffered messages in the capacity-20
channel of src/main.rs line 45. -/
def fullChannel : BoundedChannel :=
  { cap := 20, buf := List.replicate 20 msg0 }

/-! ### Helper lemmas about the batch state -/

theorem appendTask_ok_eq (st : ConsumerState) (msg : InboundMessage) (line : String) :
    appendTask st msg (.ok line) =
      { reply_chat_id := st.reply_chat_id.or (some msg.chatId)
        reply_message_id := st.reply_message_id.or (some msg.id)
        statics := st.statics ++ [line] } := rfl

theorem appendTask_error_eq (st : ConsumerState) (msg : InboundMessage) (e : FetchError) :
    appendTask st msg (.error e) =
      { reply_chat_id := st.reply_chat_id.or (some msg.chatId)
        reply_message_id := st.reply_message_id.or (some msg.id)
        statics := st.statics } := rfl

theorem appendAll_cons (st : ConsumerState) (p : InboundMessage × String)
    (batch : List (InboundMessage × String)) :
    appendAll st (p :: batch) = appendAll (appendTask st p.1 (.ok p.2)) batch := rfl

theorem appendAll_statics (st : ConsumerState) (batch : List (InboundMessage × String)) :
    (appendAll st batch).statics = st.statics ++ batch.map (fun p => p.2) := by
  induction batch generalizing st with
  | nil => simp [appendAll]
  | cons p rest ih => simp [appendAll_cons, ih, appendTask_ok_eq]

theorem appendAll_reply_chat (st : ConsumerState) (batch : List (InboundMessage × String)) :
    (appendAll st batch).reply_chat_id =
      st.reply_chat_id.or (batch.head?.map (fun p => p.1.chatId)) := by
  induction batch generalizing st with
  | nil => simp [appendAll]
  | cons p rest ih =>
      rw [appendAll_cons, ih, appendTask_ok_eq]
      cases st.reply_chat_id <;> simp

theorem appendAll_reply_message (st : ConsumerState) (batch : List (InboundMessage × String)) :
    (appendAll st batch).reply_message_id =
      st.reply_message_id.or (batch.head?.map (fun p => p.1.id)) := by
  induction batch generalizing st with
  | nil => simp [appendAll]
  | cons p rest ih =>
      rw [appendAll_cons, ih, appendTask_ok_eq]
      cases st.reply_message_id <;> simp

theorem appendTask_target_isSome (st : ConsumerState) (m : InboundMessage)
    (f : Except FetchError String) :
    (appendTask st m f).reply_chat_id.isSome = true ∧
    (appendTask st m f).reply_message_id.isSome = true := by
  cases f <;> cases hc : st.reply_chat_id <;> cases hm : st.reply_message_id <;>
    simp [appendTask, hc, hm]

/-- A successful timer tick leaves either the reset state or the state
it started from, so it preserves the property that a non-empty line
list comes with a reply target. -/
theorem timerTick_ok_target (st : ConsumerState) (sf : Bool) (st2 : ConsumerState)
    (sent : Option Reply)
    (hst : st.statics ≠ [] →
      st.reply_chat_id.isSome = true ∧ st.reply_message_id.isSome = true)
    (h : timerTick st sf = .ok (st2, sent)) :
    st2.statics ≠ [] →
      st2.reply_chat_id.isSome = true ∧ st2.reply_message_id.isSome = true := by
  cases hc : st.reply_chat_id with
  | none =>
      simp [timerTick, hc] at h
      obtain ⟨h1, _⟩ := h
      subst h1
      exact hst
  | some c =>
      cases hm : st.reply_message_id with
      | none =>
          simp [timerTick, hc, hm] at h
          obtain ⟨h1, _⟩ := h
          subst h1
          exact hst
      | some i =>
          cases sf with
          | true => simp [timerTick, hc, hm] at h
          | false =>
              simp [timerTick, hc, hm] at h
              obtain ⟨h1, _⟩ := h
              subst h1
              intro hx
              exact absurd rfl hx

/-- Along any run of the consumer loop, the property that non-empty
accumulated lines come with a set reply target is preserved. -/
theorem consumerRun_lines_target (st : ConsumerState)
    (hst : st.statics ≠ [] →
      st.reply_chat_id.isSome = true ∧ st.reply_message_id.isSome = true)
    (evs : List ConsumerEvent) (stFin : ConsumerState) (replies : List Reply)
    (h : consumerRun st evs = .ok (stFin, replies)) :
    stFin.statics ≠ [] →
      stFin.reply_chat_id.isSome = true ∧ stFin.reply_message_id.isSome = true := by
  induction evs generalizing st replies with
  | nil =>
      simp [consumerRun] at h
      obtain ⟨h1, _⟩ := h
      subst h1
      exact hst
  | cons e rest ih =>
      cases e with
      | recv m f =>
          rw [show consumerRun st (.recv m f :: rest) =
                consumerRun (appendTask st m f) rest from rfl] at h
          exact ih (appendTask st m f) (fun _ => appendTask_target_isSome st m f) _ h
      | tick sf =>
          simp only [consumerRun] at h
          split at h
          · simp at h
          · rename_i st2 sent htt
            split at h
            · simp at h
            · rename_i st3 rs hrun
              simp at h
              obtain ⟨h1, _⟩ := h
              subst h1
              exact ih st2 (timerTick_ok_target st sf st2 sent hst htt) _ hrun

/-- The fetch loop used in `consumer_loop` (each dequeued message is
fetched with `download` and its result appended) agrees with
`appendAll` when every fetch in the batch returns the same line. -/
theorem fold_download_eq_appendAll (env : IoEnv) (batch : List InboundMessage)
    (st : ConsumerState)
    (hall : ∀ m ∈ batch, download env m = .ok "No media download") :
    batch.foldl (fun s m => appendTask s m (download env m)) st =
      appendAll st (batch.map (fun m => (m, "No media download"))) := by
  induction batch generalizing st with
  | nil => rfl
  | cons m rest ih =>
      simp only [List.foldl_cons, List.map_cons, appendAll_cons]
      rw [hall m (List.mem_cons_self m rest)]
      exact ih (appendTask st m (.ok "No media download"))
        (fun x hx => hall x (List.mem_cons_of_mem m hx))

/-- Folding a batch of successful append tasks over the empty state
yields exactly the batch's lines, the first task's chat and message
identifier as target, and a flush that sends those lines joined to that
target. -/
theorem appendAll_flush (batch : List (InboundMessage × String))
    (p0 : InboundMessage × String) (h : batch.head? = some p0) :
    (appendAll initialState batch).statics = batch.map (fun p => p.2) ∧
    (appendAll initialState batch).statics.length = batch.length ∧
    (appendAll initialState batch).reply_chat_id = some p0.1.chatId ∧
    (appendAll initialState batch).reply_message_id = some p0.1.id ∧
    timerTick (appendAll initialState batch) false =
      .ok (initialState,
        some { chatId := p0.1.chatId, replyTo := p0.1.id,
               text := String.intercalate "\n" (batch.map (fun p => p.2)) }) := by
  have hs := appendAll_statics initialState batch
  have hc := appendAll_reply_chat initialState batch
  have hm := appendAll_reply_message initialState batch
  simp [initialState, h] at hs hc hm
  unfold initialState
  refine ⟨hs, ?_, hc, hm, ?_⟩
  · rw [hs]
    simp
  · simp [timerTick, hc, hm, hs]
    rfl

/-- A message with neither photo nor video succeeds with the fixed
status line, provided the directory creation collaborator succeeds. -/
theorem download_no_media (env : IoEnv) (m : InboundMessage) (hdir : env.dirOk = true)
    (hp : m.photo = none) (hv : m.video = none) :
    download env m = .ok "No media download" := by
  simp [download, hdir, hp, hv]

/-! ### Claim C1 — sweep tick of the media-group cache -/

/-- C1 counterexample: the sweep tick keeps the entry holding 1 item
(the claim says that entry is removed) and removes the entry holding 2
items (the claim says complete groups are kept). -/
theorem clean_cache_tick_cex :
    clean_cache_tick [("g", [MediaType.photo "a"])] = [("g", [MediaType.photo "a"])] ∧
    clean_cache_tick [("h", [MediaType.photo "a", MediaType.photo "b"])] = [] :=
  ⟨rfl, rfl⟩

/-- C1 (amended): one tick of the sweep loop keeps exactly those entries
whose member count is below 2 and removes exactly those whose member
count is at least 2 — it keeps incomplete groups and discards complete
ones; in particular an entry holding 1 item survives every tick. -/
theorem clean_cache_tick_mem (cache : MediaGroupCache) (k : String) (v : List MediaType) :
    (k, v) ∈ clean_cache_tick cache ↔ ((k, v) ∈ cache ∧ v.length < 2) := by
  simp [clean_cache_tick, List.mem_filter]

/-! ### Claim C10 — process_media without a group identifier -/

/-- C10: a message carrying no group-correlation identifier makes
`process_media` return `Ok` and leave the cache unchanged. -/
theorem process_media_no_group (cache : MediaGroupCache) (msg : InboundMessage)
    (media : MediaType) (h : msg.mediaGroupId = none) :
    process_media cache msg media = .ok cache := by
  simp [process_media, h]

/-- C10 witness at a concrete cache and message. -/
theorem process_media_no_group_witness :
    msg0.mediaGroupId = none ∧
    process_media [("g", [MediaType.photo "a"])] msg0 (MediaType.video "v") =
      .ok [("g", [MediaType.photo "a"])] :=
  ⟨rfl, process_media_no_group [("g", [MediaType.photo "a"])] msg0 (MediaType.video "v") rfl⟩

/-! ### Claim C4 — bounded channel submission -/

/-- C4 counterexample: at the full capacity-20 channel the code's
`send(..).await` blocks the submitting task, while the claimed contract
returns `QueueFull`; the two disagree at this input. -/
theorem mpscSend_full_cex :
    mpscSend fullChannel msg0 = SendOutcome.blocked ∧
    submitSpec fullChannel msg0 = SubmitResult.queueFull := by
  constructor <;> decide

/-- C4 (amended): the channel is bounded with capacity 20; a submission
with spare capacity is enqueued, and a submission beyond capacity while
the consumer is blocked suspends the submitting task (tokio's bounded
send awaits capacity) rather than failing with `QueueFull`; no
submission is dropped. -/
theorem channel_send_spec (c : BoundedChannel) (msg : InboundMessage) :
    (c.buf.length < c.cap →
      mpscSend c msg = .enqueued { cap := c.cap, buf := c.buf ++ [msg] }) ∧
    (c.cap ≤ c.buf.length → mpscSend c msg = .blocked) ∧
    mainChannel.cap = 20 := by
  refine ⟨fun h => ?_, fun h => ?_, rfl⟩
  · simp [mpscSend, h]
  · simp [mpscSend, Nat.not_lt.mpr h]

/-- C4 witness: both branches of the amended statement at concrete
channels. -/
theorem channel_send_spec_witness :
    (mainChannel.buf.length < mainChannel.cap ∧
      mpscSend mainChannel msg0 =
        .enqueued { cap := mainChannel.cap, buf := mainChannel.buf ++ [msg0] }) ∧
    (fullChannel.cap ≤ fullChannel.buf.length ∧ mpscSend fullChannel msg0 = .blocked) :=
  ⟨⟨by decide, (channel_send_spec mainChannel msg0).1 (by decide)⟩,
   ⟨by decide, (channel_send_spec fullChannel msg0).2.1 (by decide)⟩⟩

/-! ### Claim C8 — effect of a dequeue on the quiet-period timer -/

/-- C8 counterexample: with the pending sleep due at time 2, a dequeue
at time 1 moves the next timer deadline to 3; the claim says the
deadline stays at 2 (a fixed period from the previous tick, unaffected
by message arrivals). -/
theorem selectStep_dequeue_cex :
    (selectStep { deadline := 2 } (LoopEvent.dequeue 1)).deadline = 3 ∧ (3 : Nat) ≠ 2 :=
  ⟨rfl, by decide⟩

/-- C8 (amended): dequeuing a message restarts the quiet-period timer —
each select-loop iteration constructs a fresh sleep, so after a dequeue
at time `t` (possible only while `t` is before the pending deadline) the
timer next elapses at `t + RECEIVE_TIMEOUT`, measured from that dequeue;
only an uninterrupted timer fire happens a fixed period after the
previous one. -/
theorem selectStep_dequeue_restarts (lt : LoopTimer) (t : Nat) (h : t < lt.deadline) :
    (selectStep lt (LoopEvent.dequeue t)).deadline = t + RECEIVE_TIMEOUT ∧
    (selectStep lt LoopEvent.timerFire).deadline = lt.deadline + RECEIVE_TIMEOUT :=
  ⟨rfl, rfl⟩

/-- C8 witness at the concrete race of the counterexample's shape. -/
theorem selectStep_dequeue_restarts_witness :
    (1 : Nat) < 2 ∧
    ((selectStep { deadline := 2 } (LoopEvent.dequeue 1)).deadline = 1 + RECEIVE_TIMEOUT ∧
      (selectStep { deadline := 2 } LoopEvent.timerFire).deadline = 2 + RECEIVE_TIMEOUT) :=
  ⟨by decide, selectStep_dequeue_restarts { deadline := 2 } 1 (by decide)⟩

/-! ### Claim C5 — behaviour of the flush on timer elapse -/

/-- C5: on a timer elapse with a successful send, a set reply target
makes the loop send exactly one reply to that chat as a reply to that
message identifier, with the lines joined by newlines as text, and the
state is reset to the empty initial state; an unset reply target sends
nothing and leaves the state unchanged. -/
theorem timer_flush_spec (st : ConsumerState) :
    (∀ c i, st.reply_chat_id = some c → st.reply_message_id = some i →
      timerTick st false = .ok (initialState,
        some { chatId := c, replyTo := i, text := String.intercalate "\n" st.statics })) ∧
    ((st.reply_chat_id = none ∨ st.reply_message_id = none) →
      timerTick st false = .ok (st, none)) := by
  constructor
  · intro c i hc hi
    simp [timerTick, hc, hi]
  · intro h
    rcases h with hc | hi
    · simp [timerTick, hc]
    · cases hc : st.reply_chat_id <;> simp [timerTick, hc, hi]

/-- C5 witness: both branches at concrete states. -/
theorem timer_flush_spec_witness :
    timerTick { reply_chat_id := some 5, reply_message_id := some 7, statics := ["a", "b"] }
        false =
      .ok (initialState,
        some { chatId := 5, replyTo := 7, text := String.intercalate "\n" ["a", "b"] }) ∧
    timerTick initialState false = .ok (initialState, none) :=
  ⟨(timer_flush_spec
      { reply_chat_id := some 5, reply_message_id := some 7, statics := ["a", "b"] }).1
      5 7 rfl rfl,
   (timer_flush_spec initialState).2 (Or.inl rfl)⟩

/-! ### Claim C7 — a failed send terminates the consumer loop -/

/-- C7: when the state has a reply target and the outbound send of the
flush fails, the consumer loop terminates with the send error, whatever
events would have followed. -/
theorem send_failure_terminates (st : ConsumerState) (evs : List ConsumerEvent)
    (c i : Int) (hc : st.reply_chat_id = some c) (hi : st.reply_message_id = some i) :
    consumerRun st (ConsumerEvent.tick true :: evs) = .error .sendError := by
  simp [consumerRun, timerTick, hc, hi]

/-- C7 witness: a failing flush at a concrete state ends the run even
though another tick was pending. -/
theorem send_failure_terminates_witness :
    ({ reply_chat_id := some 5, reply_message_id := some 7,
        statics := ["a"] } : ConsumerState).reply_chat_id = some 5 ∧
    consumerRun { reply_chat_id := some 5, reply_message_id := some 7, statics := ["a"] }
        [ConsumerEvent.tick true, ConsumerEvent.tick false] = .error .sendError :=
  ⟨rfl, send_failure_terminates
    { reply_chat_id := some 5, reply_message_id := some 7, statics := ["a"] }
    [ConsumerEvent.tick false] 5 7 rfl rfl⟩

/-! ### Claim C6 — batch of successful fetches and first-writer-wins -/

/-- C6: folding any batch of successful append tasks, in
lock-acquisition order, over the empty state yields exactly the batch's
lines (one per fetch, in order), a reply target equal to the first
task's chat and message identifier (first-writer-wins, never
overwritten), and a flush that sends those lines joined to that
target. -/
theorem batch_reply_first_writer (batch : List (InboundMessage × String))
    (p0 : InboundMessage × String) (h : batch.head? = some p0) :
    (appendAll initialState batch).statics = batch.map (fun p => p.2) ∧
    (appendAll initialState batch).statics.length = batch.length ∧
    (appendAll initialState batch).reply_chat_id = some p0.1.chatId ∧
    (appendAll initialState batch).reply_message_id = some p0.1.id ∧
    timerTick (appendAll initialState batch) false =
      .ok (initialState,
        some { chatId := p0.1.chatId, replyTo := p0.1.id,
               text := String.intercalate "\n" (batch.map (fun p => p.2)) }) :=
  appendAll_flush batch p0 h

/-- C6 witness at a concrete two-element batch: the reply target is the
first task's, not the second's. -/
theorem batch_reply_first_writer_witness :
    ([(msg0, "A"), ({ msg0 with id := 8, chatId := 6 }, "B")].head? = some (msg0, "A")) ∧
    timerTick (appendAll initialState
        [(msg0, "A"), ({ msg0 with id := 8, chatId := 6 }, "B")]) false =
      .ok (initialState,
        some { chatId := msg0.chatId, replyTo := msg0.id,
               text := String.intercalate "\n"
                 ([(msg0, "A"), ({ msg0 with id := 8, chatId := 6 }, "B")].map
                   (fun p => p.2)) }) :=
  ⟨rfl, (batch_reply_first_writer
    [(msg0, "A"), ({ msg0 with id := 8, chatId := 6 }, "B")] (msg0, "A") rfl).2.2.2.2⟩

/-! ### Claim C2 — a failed fetch and the next flush -/

/-- C2 counterexample: one message whose fetch fails leaves the batch
with no lines but with the reply target set, so the next timer elapse
does send an outbound reply (with empty text), contradicting the claim
that no reply is sent. -/
theorem failed_fetch_reply_cex :
    consumerRun initialState
        [ConsumerEvent.recv msg0 (.error .getFileError), ConsumerEvent.tick false] =
      .ok (initialState, [{ chatId := 5, replyTo := 7, text := "" }]) ∧
    ([{ chatId := 5, replyTo := 7, text := "" }] : List Reply) ≠ [] :=
  ⟨rfl, by decide⟩

/-- C2 (amended): a failed fetch contributes no line to the batch, but
the append task records the reply target before fetching, so on the
next quiet-period timer elapse one outbound reply with empty text is
sent to that message's chat as a reply to it, after which the state is
cleared. -/
theorem failed_fetch_sets_target (msg : InboundMessage) (e : FetchError) :
    (appendTask initialState msg (.error e)).statics = [] ∧
    consumerRun initialState [ConsumerEvent.recv msg (.error e), ConsumerEvent.tick false] =
      .ok (initialState, [{ chatId := msg.chatId, replyTo := msg.id, text := "" }]) := by
  refine ⟨rfl, ?_⟩
  have h1 : appendTask initialState msg (.error e) =
      { reply_chat_id := some msg.chatId, reply_message_id := some msg.id,
        statics := [] } := by
    rw [appendTask_error_eq]
    simp [initialState]
  rw [show consumerRun initialState
        [ConsumerEvent.recv msg (.error e), ConsumerEvent.tick false] =
        consumerRun (appendTask initialState msg (.error e))
          [ConsumerEvent.tick false] from rfl, h1]
  simp [consumerRun, timerTick]
  rfl

/-! ### Claim C3 — the BatchState invariant -/

/-- C3 counterexample: the state reached by one append task whose fetch
failed has the reply target set while the line list is empty, falsifying
the claimed equivalence between an absent target and empty lines. -/
theorem batchInv_cex :
    consumerRun initialState [ConsumerEvent.recv msg0 (.error .getFileError)] =
      .ok ({ reply_chat_id := some 5, reply_message_id := some 7, statics := [] }, []) ∧
    ¬ batchInv { reply_chat_id := some 5, reply_message_id := some 7, statics := [] } :=
  ⟨rfl, by decide⟩

/-- C3 (amended): at every state reachable by any interleaving of append
tasks and flushes, a non-empty line list implies the reply target is
set; the converse direction fails, since an append task whose fetch
failed sets the reply target while leaving the line list empty (the
flush still clears target and lines together). -/
theorem batch_lines_imply_target (evs : List ConsumerEvent) (stFin : ConsumerState)
    (replies : List Reply) (h : consumerRun initialState evs = .ok (stFin, replies))
    (hne : stFin.statics ≠ []) :
    stFin.reply_chat_id.isSome = true ∧ stFin.reply_message_id.isSome = true :=
  consumerRun_lines_target initialState (fun hx => absurd rfl hx) evs stFin replies h hne

/-- C3 witness at a concrete run reaching a state with one line. -/
theorem batch_lines_imply_target_witness :
    consumerRun initialState [ConsumerEvent.recv msg0 (.ok "x")] =
      .ok ({ reply_chat_id := some 5, reply_message_id := some 7, statics := ["x"] }, []) ∧
    ({ reply_chat_id := some 5, reply_message_id := some 7,
        statics := ["x"] } : ConsumerState).statics ≠ [] ∧
    (({ reply_chat_id := some 5, reply_message_id := some 7,
        statics := ["x"] } : ConsumerState).reply_chat_id.isSome = true ∧
     ({ reply_chat_id := some 5, reply_message_id := some 7,
        statics := ["x"] } : ConsumerState).reply_message_id.isSome = true) :=
  ⟨rfl, by decide,
   batch_lines_imply_target [ConsumerEvent.recv msg0 (.ok "x")]
     { reply_chat_id := some 5, reply_message_id := some 7, statics := ["x"] } []
     rfl (by decide)⟩

/-! ### Claim C9 — messages without media -/

/-- C9: every message with neither photo nor video fetches successfully
with the status line "No media download" (given the directory
collaborator succeeds), each such line is appended to the batch, and a
non-empty batch consisting only of such messages still makes the next
flush send one reply, addressed to the first message, whose text joins
one such line per message. -/
theorem no_media_batch_replies (env : IoEnv) (batch : List InboundMessage)
    (p0 : InboundMessage) (hdir : env.dirOk = true)
    (hmedia : ∀ m ∈ batch, m.photo = none ∧ m.video = none)
    (hhead : batch.head? = some p0) :
    (∀ m ∈ batch, download env m = .ok "No media download") ∧
    timerTick (batch.foldl (fun s m => appendTask s m (download env m)) initialState)
        false =
      .ok (initialState,
        some { chatId := p0.chatId, replyTo := p0.id,
               text := String.intercalate "\n"
                 (List.replicate batch.length "No media download") }) := by
  have hall : ∀ m ∈ batch, download env m = .ok "No media download" := fun m hm =>
    download_no_media env m hdir (hmedia m hm).1 (hmedia m hm).2
  refine ⟨hall, ?_⟩
  rw [fold_download_eq_appendAll env batch initialState hall]
  have hh : (batch.map (fun m => (m, "No media download"))).head? =
      some (p0, "No media download") := by
    rw [List.head?_map, hhead]
    rfl
  have hres := (appendAll_flush (batch.map (fun m => (m, "No media download")))
    (p0, "No media download") hh).2.2.2.2
  rw [hres]
  have htext : (batch.map (fun m => (m, "No media download"))).map (fun p => p.2) =
      List.replicate batch.length "No media download" := by
    rw [List.map_map]
    exact List.map_const batch "No media download"
  rw [htext]

/-- C9 witness at a concrete one-message batch with all collaborators
succeeding. -/
theorem no_media_batch_replies_witness :
    (({ dirOk := true, getFileOk := true, createOk := true,
         downloadOk := true } : IoEnv).dirOk = true ∧
     (∀ m ∈ [msg0], m.photo = none ∧ m.video = none) ∧
     [msg0].head? = some msg0) ∧
    timerTick ([msg0].foldl
        (fun s m => appendTask s m (download
          { dirOk := true, getFileOk := true, createOk := true, downloadOk := true } m))
        initialState) false =
      .ok (initialState,
        some { chatId := msg0.chatId, replyTo := msg0.id,
               text := String.intercalate "\n"
                 (List.replicate [msg0].length "No media download") }) :=
  ⟨⟨rfl, by decide, rfl⟩,
   (no_media_batch_replies
     { dirOk := true, getFileOk := true, createOk := true, downloadOk := true }
     [msg0] msg0 rfl (by decide) rfl).2⟩

end EatlinkBot
